import Mathlib

/-!
Shallow embedding of the token-balance hook (useTokenBalanceForAccount) and
its error classifier (errorToMessage), together with proofs of the
specification's claims about them.

The hook builds an SWR cache key from the token, network, account and
optional multicall addresses, fetches the balance, optionally converts a
fetch failure into a TokenBalanceErrorMessage value, and re-fetches when the
account's pending-transaction count decreases.
-/

namespace TokenBalance

/-- A JavaScript value as far as the classifier observes it: a string, the
value undefined (a missing field), or some other non-string value. -/
inductive JsVal where
  | vstr (s : String)
  | vundef
  | vother
deriving DecidableEq, Repr

/-- The errorCode field read off a raw error object: a string, a number,
null, or undefined (field missing, or the error is not an object). -/
inductive ErrCode where
  | cstr (s : String)
  | cnum (n : Int)
  | cnull
  | cundef
deriving DecidableEq, Repr

/-- A raw error as the classifier observes it through lodash get: only the
errorCode and message fields matter. -/
structure RawErr where
  errorCode : ErrCode
  message : JsVal
deriving DecidableEq, Repr

/-- The TokenBalanceErrorMessage interface from the source.  The
description field is a JsVal because the source assigns the raw message
value to it, which may be undefined or a non-string. -/
structure TokenBalanceErrorMessage where
  message : String
  description : JsVal
deriving DecidableEq, Repr

/-- A hexadecimal digit as matched by the character class of the source's
regular expression with the case-insensitive flag. -/
def isHexDigitChar (c : Char) : Bool :=
  c.isDigit || (('a' ≤ c && c ≤ 'f') || ('A' ≤ c && c ≤ 'F'))

/-- Leftmost match of the source's address pattern (literal zero, literal x,
then one or more hexadecimal digits, case-insensitive, greedy) over a
character list; none when the pattern occurs nowhere. -/
def firstHexMatch : List Char → Option (List Char)
  | c :: x :: d :: tl =>
    if c == '0' && (x == 'x' || x == 'X') && isHexDigitChar d then
      some (c :: x :: d :: tl.takeWhile isHexDigitChar)
    else
      firstHexMatch (x :: d :: tl)
  | _ => none

/-- First hex-address-shaped substring of a message, mirroring
message.match with the source's pattern followed by taking element zero. -/
def firstHexAddress (s : String) : Option String :=
  (firstHexMatch s.data).map fun l => String.mk l

/-- Lowercase a string character by character, as the case-insensitive
comparison of addresses requires. -/
def lowerChars (a : String) : List Char :=
  a.data.map Char.toLower

/-- Drop a leading 0x marker from a lowercased character list. -/
def dropHexMarker : List Char → List Char
  | '0' :: 'x' :: rest => rest
  | l => l

/-- Modelled from the spec: normal form of an address for the
address-equality helper isEqualAddress, which the source imports from
services/addresses (not among the sources).  Per the spec the helper tests
address equality ignoring case and zero-padding, so the normal form
lowercases, removes a leading 0x marker, and strips leading zero digits. -/
def normalizeAddress (a : String) : List Char :=
  (dropHexMarker (lowerChars a)).dropWhile fun c => c == '0'

/-- Modelled from the spec: the address-equality helper isEqualAddress
(imported from services/addresses, not among the sources); structural,
case- and padding-insensitive equality.  An empty string is not an address
and is equal to nothing. -/
def isEqualAddress (a b : String) : Bool :=
  !a.isEmpty && !b.isEmpty && (normalizeAddress a == normalizeAddress b)

/-- Modelled from the spec: the numeric-validity helper isNumeric (imported
from shared/utils/number, not among the sources).  The spec requires an
explicit numeric validity check so that a non-numeric or absent error code
never matches the retryable set: a number is numeric, a string is numeric
exactly when it is a nonempty string of decimal digits, null and undefined
are not numeric. -/
def isNumeric : ErrCode → Bool
  | ErrCode.cnum _ => true
  | ErrCode.cstr s => !s.isEmpty && s.data.all Char.isDigit
  | ErrCode.cnull => false
  | ErrCode.cundef => false

/-- Decimal value of a digit string. -/
def decimalValue (l : List Char) : Nat :=
  l.foldl (fun acc c => acc * 10 + (c.toNat - 48)) 0

/-- Numeric coercion of an error code, used by the source only after the
isNumeric guard has passed. -/
def codeToNumber : ErrCode → Int
  | ErrCode.cnum n => n
  | ErrCode.cstr s => Int.ofNat (decimalValue s.data)
  | ErrCode.cnull => 0
  | ErrCode.cundef => 0

/-- isNetworkError from the source: false unless the code passes the
numeric-validity check, otherwise true exactly when the coerced numeric
value is one of the retryable codes 429 and 502. -/
def isNetworkError (errorCode : ErrCode) : Bool :=
  if !isNumeric errorCode then
    false
  else
    [(429 : Int), 502].contains (codeToNumber errorCode)

/-- The error-code string the source compares against for an
uninitialized (undeployed) contract. -/
def uninitializedContractCode : String :=
  "StarknetErrorCode.UNINITIALIZED_CONTRACT"

/-- The truthiness-guarded multicall comparison from the source: the
multicall address must be present and trueish (a present empty string is
falsy in JavaScript) and equal to the extracted contract address. -/
def multicallMatches (contractAddress : String) : Option String → Bool
  | some mca => !mca.isEmpty && isEqualAddress contractAddress mca
  | none => false

/-- errorToMessage from the source.  An Except.error result models the
JavaScript TypeError thrown at the message.match call, which the source
performs unconditionally inside the uninitialized-contract branch, so it
crashes whenever the message field is not a string there. -/
def errorToMessage (error : RawErr) (tokenAddress : String)
    (multicallAddress : Option String) : Except Unit TokenBalanceErrorMessage :=
  let errorCode := error.errorCode
  let message := error.message
  if errorCode = ErrCode.cstr uninitializedContractCode then
    match message with
    | JsVal.vstr m =>
      match firstHexAddress m with
      | some contractAddress =>
        if isEqualAddress contractAddress tokenAddress then
          Except.ok
            { message := "Token not found"
              description := JsVal.vstr
                ("Token with address " ++ tokenAddress ++
                  " not deployed on this network") }
        else if multicallMatches contractAddress multicallAddress then
          Except.ok
            { message := "No Multicall"
              description := JsVal.vstr
                ("Multicall contract with address " ++ multicallAddress.getD "" ++
                  " not deployed on this network") }
        else
          Except.ok
            { message := "Missing contract"
              description := JsVal.vstr
                ("Contract with address " ++ contractAddress ++
                  " not deployed on this network") }
      | none =>
        Except.ok { message := "Missing contract", description := JsVal.vstr m }
    | JsVal.vundef => Except.error ()
    | JsVal.vother => Except.error ()
  else if isNetworkError errorCode then
    Except.ok { message := "Network error", description := message }
  else
    Except.ok { message := "Error", description := message }

/-- Whether the development-only console diagnostic in the final else branch
of errorToMessage fires: the build is a development build and neither the
uninitialized-contract branch nor the network-error branch applies. -/
def diagEmitted (isDev : Bool) (error : RawErr) : Bool :=
  isDev && !(decide (error.errorCode = ErrCode.cstr uninitializedContractCode)) &&
    !isNetworkError error.errorCode

/-- Array.prototype.join with a dash separator, as the source applies to the
key components. -/
def joinDash : List String → String
  | [] => ""
  | [s] => s
  | s :: rest => s ++ "-" ++ joinDash rest

/-- The SWR cache key from the source: the five components (the literal
balanceOf, token address, network id, account address and the optional
multicall address), filtered by JavaScript truthiness (filter Boolean drops
both an absent multicall address and any empty-string component) and joined
with a dash. -/
def buildKey (tokenAddress networkId accountAddress : String)
    (multicallAddress : Option String) : String :=
  joinDash
    ((["balanceOf", tokenAddress, networkId, accountAddress] ++
        multicallAddress.toList).filter fun s => !s.isEmpty)

/-- The tail of a balance key from the account address on: the account
address alone, or the account address, a dash and the multicall address. -/
def mcSuffix (accountAddress : String) : Option String → String
  | some m => accountAddress ++ "-" ++ m
  | none => accountAddress

/-- Outcome of one run of the SWR fetcher closure of the hook: the balance
string on success; a classified message returned as data; the original
error rethrown; or the TypeError escaping from errorToMessage. -/
inductive FetchOutcome where
  | ok (balance : String)
  | classified (m : TokenBalanceErrorMessage)
  | thrown (e : RawErr)
  | typeError
deriving DecidableEq, Repr

/-- The fetcher closure from the source: pass a successful balance through
unchanged; on failure, either classify the error (when shouldReturnError)
or rethrow it unchanged.  The classification itself can raise a TypeError,
which then also escapes the fetcher. -/
def fetchStep (result : Except RawErr String) (shouldReturnError : Bool)
    (tokenAddress : String) (multicallAddress : Option String) : FetchOutcome :=
  match result with
  | Except.ok balance => FetchOutcome.ok balance
  | Except.error e =>
    if shouldReturnError then
      match errorToMessage e tokenAddress multicallAddress with
      | Except.ok m => FetchOutcome.classified m
      | Except.error _ => FetchOutcome.typeError
    else
      FetchOutcome.thrown e

/-- One run of the invalidation effect from the source: fire mutate exactly
when the retained count exceeds the newly observed count, then store the
new count in the ref regardless. -/
def watcherStep (lastCount newCount : Nat) : Nat × Bool :=
  (newCount, decide (lastCount > newCount))

/-- Run the effect over a list of observed counts, starting from a retained
baseline, returning the fire flag of every run. -/
def watcherRun (lastCount : Nat) : List Nat → List Bool
  | [] => []
  | c :: rest => (watcherStep lastCount c).2 :: watcherRun c rest

/-- Full watcher run over an observation sequence: the ref is initialized
from the first observation, and the effect also runs on that first
observation (against the just-initialized baseline). -/
def runWatcher : List Nat → List Bool
  | [] => []
  | c :: rest => watcherRun c (c :: rest)

/-- Modelled from the spec: one cache entry of the balance cache
(BalanceCache), whose implementation is the external useSWR library and is
not among the sources.  It holds the last delivered value and the id of the
in-flight fetch currently owning the entry, if any. -/
structure CacheEntry where
  value : Option String
  currentFetch : Option Nat
deriving DecidableEq, Repr

/-- Modelled from the spec: the balance-cache state — entries per key, a
fresh-fetch-id counter, and the log of external getBalance calls issued
(key and fetch id), in order. -/
structure CacheState where
  entries : List (String × CacheEntry)
  nextId : Nat
  calls : List (String × Nat)
deriving DecidableEq, Repr

/-- The cache before any subscription. -/
def CacheState.empty : CacheState :=
  { entries := [], nextId := 0, calls := [] }

/-- Look up the entry for a key. -/
def lookupEntry (s : CacheState) (k : String) : Option CacheEntry :=
  (s.entries.find? fun p => p.1 == k).map fun p => p.2

/-- Replace or insert the entry for a key. -/
def setEntry (l : List (String × CacheEntry)) (k : String) (e : CacheEntry) :
    List (String × CacheEntry) :=
  match l with
  | [] => [(k, e)]
  | p :: rest => if p.1 == k then (k, e) :: rest else p :: setEntry rest k e

/-- Modelled from the spec: start a fresh external fetch for a key — issue a
getBalance call with a fresh id, and make that id the sole owner of the
entry (superseding any fetch previously in flight for the key). -/
def startFetch (s : CacheState) (k : String) : CacheState :=
  let id := s.nextId
  let old : Option String := (lookupEntry s k).bind fun e => e.value
  { entries := setEntry s.entries k { value := old, currentFetch := some id }
    nextId := id + 1
    calls := s.calls ++ [(k, id)] }

/-- Modelled from the spec: subscribe registers interest in a key; on a
cache miss it starts a fetch, while a subscriber arriving when a fetch is
already in flight (or a value already cached) coalesces onto the existing
entry and issues no new external call. -/
def subscribe (s : CacheState) (k : String) : CacheState :=
  match lookupEntry s k with
  | some e => if e.currentFetch.isSome || e.value.isSome then s else startFetch s k
  | none => startFetch s k

/-- Modelled from the spec: invalidate (mutate) forces the key back to
loading and re-fetches; the fresh fetch supersedes any in-flight one. -/
def invalidate (s : CacheState) (k : String) : CacheState :=
  startFetch s k

/-- Modelled from the spec: an external fetch completes with a value.  The
result is stored only when that fetch still owns the entry; a superseded
fetch's late result is discarded. -/
def complete (s : CacheState) (k : String) (id : Nat) (v : String) : CacheState :=
  match lookupEntry s k with
  | some e =>
    if e.currentFetch = some id then
      { s with entries := setEntry s.entries k { value := some v, currentFetch := none } }
    else s
  | none => s

/-- The value a subscriber of a key currently observes. -/
def readValue (s : CacheState) (k : String) : Option String :=
  (lookupEntry s k).bind fun e => e.value

/-- The ids of the external getBalance calls issued for a key, in order. -/
def callsFor (s : CacheState) (k : String) : List Nat :=
  (s.calls.filter fun p => p.1 == k).map fun p => p.2

/-! ## Helper lemmas -/

lemma isEmpty_false_of_ne (s : String) (h : s ≠ "") : s.isEmpty = false := by
  cases hs : s.isEmpty with
  | false => rfl
  | true => exact absurd ((String.isEmpty_iff s).mp hs) h

lemma isEqualAddress_empty_right (a b : String) (hb : b.isEmpty = true) :
    isEqualAddress a b = false := by
  simp [isEqualAddress, hb]

lemma str_append_left_cancel {p x y : String} (h : p ++ x = p ++ y) : x = y := by
  apply String.ext
  have hd := congrArg String.data h
  rw [String.data_append, String.data_append] at hd
  exact List.append_cancel_left hd

lemma str_append_right_cancel {s x y : String} (h : x ++ s = y ++ s) : x = y := by
  apply String.ext
  have hd := congrArg String.data h
  rw [String.data_append, String.data_append] at hd
  exact List.append_cancel_right hd

lemma str_append_dash_ne (x m : String) : x ++ "-" ++ m ≠ x := by
  intro h
  have hl := congrArg String.length h
  rw [String.length_append, String.length_append] at hl
  have hdash : ("-" : String).length = 1 := rfl
  rw [hdash] at hl
  omega

/-! ## Theorems for the claims -/

/-- C1: in the uninitialized-contract branch with a string message, the
classifier extracts the first hex-shaped address and follows exactly the
claimed precedence: equal to the token address gives Token not found; else
a present multicall address it equals gives No Multicall; else Missing
contract naming the extracted address; and with no extractable address,
Missing contract with the raw message as description. -/
theorem C1_uninitialized_contract_decision_table
    (m tokenAddress : String) (multicallAddress : Option String) :
    errorToMessage ⟨ErrCode.cstr uninitializedContractCode, JsVal.vstr m⟩
        tokenAddress multicallAddress =
      Except.ok
        (match firstHexAddress m with
          | some a =>
            if isEqualAddress a tokenAddress then
              { message := "Token not found"
                description := JsVal.vstr
                  ("Token with address " ++ tokenAddress ++
                    " not deployed on this network") }
            else
              match multicallAddress with
              | some mca =>
                if isEqualAddress a mca then
                  { message := "No Multicall"
                    description := JsVal.vstr
                      ("Multicall contract with address " ++ mca ++
                        " not deployed on this network") }
                else
                  { message := "Missing contract"
                    description := JsVal.vstr
                      ("Contract with address " ++ a ++
                        " not deployed on this network") }
              | none =>
                { message := "Missing contract"
                  description := JsVal.vstr
                    ("Contract with address " ++ a ++
                      " not deployed on this network") }
          | none =>
            { message := "Missing contract", description := JsVal.vstr m }) := by
  simp only [errorToMessage]
  cases h : firstHexAddress m with
  | none => simp [h]
  | some a =>
    by_cases ht : isEqualAddress a tokenAddress = true
    · simp [h, ht]
    · cases multicallAddress with
      | none => simp [h, ht, multicallMatches]
      | some mca =>
        by_cases hm : mca.isEmpty = true
        · simp [h, ht, multicallMatches, hm, isEqualAddress_empty_right a mca hm]
        · by_cases hq : isEqualAddress a mca = true
          · simp [h, ht, multicallMatches, hm, hq]
          · simp [h, ht, multicallMatches, hm, hq]

/-- C3: outside the uninitialized-contract branch the classifier reports the
Network error category with the raw message exactly when the error code
passes the numeric-validity check with value 429 or 502, and the Error
category otherwise; the codes 429 and 502 (as numbers or numeric strings)
pass that check, while a non-numeric string, null, undefined and the number
500 do not. -/
theorem C3_network_error_characterization
    (c : ErrCode) (mv : JsVal) (tok : String) (mc : Option String)
    (h : c ≠ ErrCode.cstr uninitializedContractCode) :
    (isNetworkError c = true →
        errorToMessage ⟨c, mv⟩ tok mc
          = Except.ok { message := "Network error", description := mv })
    ∧ (isNetworkError c = false →
        errorToMessage ⟨c, mv⟩ tok mc
          = Except.ok { message := "Error", description := mv })
    ∧ isNetworkError (ErrCode.cnum 429) = true
    ∧ isNetworkError (ErrCode.cnum 502) = true
    ∧ isNetworkError (ErrCode.cstr "429") = true
    ∧ isNetworkError (ErrCode.cstr "502") = true
    ∧ isNetworkError (ErrCode.cstr "429x") = false
    ∧ isNetworkError ErrCode.cnull = false
    ∧ isNetworkError ErrCode.cundef = false
    ∧ isNetworkError (ErrCode.cnum 500) = false := by
  refine ⟨fun hn => ?_, fun hn => ?_, by decide, by decide, by decide, by decide,
    by decide, by decide, by decide, by decide⟩
  · simp [errorToMessage, h, hn]
  · simp [errorToMessage, h, hn]

/-- C3 witness: the characterization applied to the concrete code 429 with
a string message. -/
theorem C3_witness :
    errorToMessage ⟨ErrCode.cnum 429, JsVal.vstr "m"⟩ "0xt" none
      = Except.ok { message := "Network error", description := JsVal.vstr "m" } :=
  (C3_network_error_characterization (ErrCode.cnum 429) (JsVal.vstr "m") "0xt" none
      (by decide)).1 (by decide)


/-- C4: when shouldReturnError is false the fetcher re-raises the original
failure unchanged; but the claim that shouldReturnError = true never throws
is falsified by the code: for an uninitialized-contract error without a
message field, the classifier's TypeError escapes the fetcher even with
shouldReturnError = true. -/
theorem C4_fetch_error_paths :
    (∀ (e : RawErr) (tok : String) (mc : Option String),
        fetchStep (Except.error e) false tok mc = FetchOutcome.thrown e)
    ∧ fetchStep
        (Except.error ⟨ErrCode.cstr uninitializedContractCode, JsVal.vundef⟩)
        true "0x1" none = FetchOutcome.typeError :=
  ⟨fun _ _ _ => rfl, rfl⟩

/-- C5: the invalidation watcher fires exactly on a strict decrease of the
observed pending-transaction count, never on the first observation, and
always retains the new count as the next baseline; on the observation
sequence 3, 3, 5, 2, 2, 4 it fires exactly once, at the transition from 5
to 2. -/
theorem C5_invalidation_watcher :
    (∀ lastCount newCount : Nat,
        watcherStep lastCount newCount = (newCount, decide (newCount < lastCount)))
    ∧ (∀ (c0 : Nat) (rest : List Nat),
        runWatcher (c0 :: rest) = false :: watcherRun c0 rest)
    ∧ runWatcher [3, 3, 5, 2, 2, 4] = [false, false, false, true, false, false] := by
  refine ⟨fun _ _ => rfl, fun c0 rest => ?_, by decide⟩
  simp [runWatcher, watcherRun, watcherStep]

/-- C6: a successful balance query resolves to exactly the string produced
by the balance-query collaborator, unmodified, for every caller
configuration. -/
theorem C6_success_passthrough (b : String) (shouldReturnError : Bool)
    (tok : String) (mc : Option String) :
    fetchStep (Except.ok b) shouldReturnError tok mc = FetchOutcome.ok b :=
  rfl

/-- C7 is falsified by the code: the classifier is not total.  When the
error code is the uninitialized-contract code and the message field is
absent (undefined) or not a string, the unconditional message.match call
raises a TypeError instead of returning a classified message. -/
theorem C7_classifier_crash :
    errorToMessage ⟨ErrCode.cstr uninitializedContractCode, JsVal.vundef⟩
        "0x1" none = Except.error ()
    ∧ errorToMessage ⟨ErrCode.cstr uninitializedContractCode, JsVal.vother⟩
        "0x1" none = Except.error () :=
  ⟨rfl, rfl⟩

/-- C8: coalescing — a second subscriber arriving for the same key before
the first fetch resolves issues no second external call (exactly one
getBalance call, with fetch id zero, is in the log), and when that single
fetch completes, the shared entry both subscribers read holds its value. -/
theorem C8_coalescing (k v : String) :
    callsFor (subscribe (subscribe CacheState.empty k) k) k = [0]
    ∧ readValue (complete (subscribe (subscribe CacheState.empty k) k) k 0 v) k
        = some v := by
  constructor <;>
    simp [subscribe, startFetch, lookupEntry, setEntry, CacheState.empty,
      callsFor, complete, readValue]

/-- C9: supersession — after an invalidation arrives while fetch zero is in
flight (spawning fetch one), the late result of fetch zero is discarded
whether it lands before or after fetch one's result, and the entry ends up
holding exactly fetch one's value: delivery follows invalidation order, not
completion order. -/
theorem C9_supersession (k vOld vNew : String) :
    (complete (invalidate (subscribe CacheState.empty k) k) k 0 vOld
        = invalidate (subscribe CacheState.empty k) k)
    ∧ (complete (complete (invalidate (subscribe CacheState.empty k) k) k 1 vNew)
          k 0 vOld
        = complete (invalidate (subscribe CacheState.empty k) k) k 1 vNew)
    ∧ readValue
        (complete (complete (invalidate (subscribe CacheState.empty k) k) k 1 vNew)
          k 0 vOld) k
        = some vNew := by
  refine ⟨?_, ?_, ?_⟩ <;>
    simp [subscribe, invalidate, startFetch, lookupEntry, setEntry, CacheState.empty,
      complete, readValue]

lemma errorToMessage_label (e : RawErr) (tok : String) (mc : Option String) :
    match errorToMessage e tok mc with
    | Except.ok r =>
        r.message ∈ (["Token not found", "No Multicall", "Missing contract",
          "Network error", "Error"] : List String)
    | Except.error _ => True := by
  obtain ⟨c, msg⟩ := e
  by_cases hc : c = ErrCode.cstr uninitializedContractCode
  · cases msg with
    | vstr m =>
      cases hfa : firstHexAddress m with
      | some a =>
        by_cases h1 : isEqualAddress a tok = true
        · simp [errorToMessage, hc, hfa, h1]
        · by_cases h2 : multicallMatches a mc = true
          · simp [errorToMessage, hc, hfa, h1, h2]
          · simp [errorToMessage, hc, hfa, h1, h2]
      | none => simp [errorToMessage, hc, hfa]
    | vundef => simp [errorToMessage, hc]
    | vother => simp [errorToMessage, hc]
  · by_cases hn : isNetworkError c = true
    · simp [errorToMessage, hc, hn]
    · simp [errorToMessage, hc, hn]

/-- C10: every classified message carries one of exactly five labels (Token
not found, No Multicall, Missing contract, Network error, and the literal
Error for the generic category); whenever neither special branch applies
the label is exactly the literal Error; and the unhandled-shape diagnostic
never fires outside development builds. -/
theorem C10_label_set :
    (∀ (e : RawErr) (tok : String) (mc : Option String) (r : TokenBalanceErrorMessage),
        errorToMessage e tok mc = Except.ok r →
          r.message ∈ (["Token not found", "No Multicall", "Missing contract",
            "Network error", "Error"] : List String))
    ∧ (∀ (e : RawErr) (tok : String) (mc : Option String),
        e.errorCode ≠ ErrCode.cstr uninitializedContractCode →
          isNetworkError e.errorCode = false →
            errorToMessage e tok mc
              = Except.ok { message := "Error", description := e.message })
    ∧ (∀ e : RawErr, diagEmitted false e = false)
    ∧ (∀ (isDev : Bool) (e : RawErr), diagEmitted isDev e = true → isDev = true) := by
  refine ⟨fun e tok mc r hr => ?_, fun e tok mc h1 h2 => ?_, fun e => ?_,
    fun isDev e hd => ?_⟩
  · have hl := errorToMessage_label e tok mc
    rw [hr] at hl
    exact hl
  · obtain ⟨c, msg⟩ := e
    simp only [RawErr.errorCode] at h1 h2
    simp [errorToMessage, h1, h2]
  · simp [diagEmitted]
  · cases isDev with
    | true => rfl
    | false => simp [diagEmitted] at hd

/-- C10 witness: the label conjunct applied to a generic error, and the
generic-branch conjunct applied to an undefined error code. -/
theorem C10_witness :
    (({ message := "Error", description := JsVal.vstr "m" } :
          TokenBalanceErrorMessage).message
        ∈ (["Token not found", "No Multicall", "Missing contract", "Network error",
            "Error"] : List String))
    ∧ errorToMessage ⟨ErrCode.cundef, JsVal.vstr "m"⟩ "0xt" none
        = Except.ok { message := "Error", description := JsVal.vstr "m" } :=
  ⟨C10_label_set.1 ⟨ErrCode.cundef, JsVal.vstr "m"⟩ "0xt" none
      { message := "Error", description := JsVal.vstr "m" } rfl,
    C10_label_set.2.1 ⟨ErrCode.cundef, JsVal.vstr "m"⟩ "0xt" none (by decide) (by decide)⟩

/-- C2 counterexample: a present-but-empty multicall address is dropped by
the truthiness filter, so the tuple with it yields the same key as the
tuple without any multicall address, though the two tuples differ in that
component (and the first three components are non-empty). -/
theorem C2_counterexample :
    buildKey "0xt" "net" "0xa" (some "") = buildKey "0xt" "net" "0xa" none
    ∧ (some "" : Option String) ≠ (none : Option String) :=
  ⟨rfl, by decide⟩

lemma buildKey_eq_joinDash (t n a : String) (mc : Option String)
    (ht : t.isEmpty = false) (hn : n.isEmpty = false) (ha : a.isEmpty = false)
    (hm : ∀ m, mc = some m → m.isEmpty = false) :
    buildKey t n a mc
      = "balanceOf" ++ "-" ++ (t ++ "-" ++ (n ++ "-" ++ mcSuffix a mc)) := by
  have hb : ("balanceOf" : String).isEmpty = false := rfl
  cases mc with
  | none => simp [buildKey, joinDash, mcSuffix, hb, ht, hn, ha]
  | some m =>
    have hm2 : m.isEmpty = false := hm m rfl
    simp [buildKey, joinDash, mcSuffix, hb, ht, hn, ha, hm2]

/-- C2 amended: assuming additionally that the multicall address, when
present, is non-empty, the key computation is deterministic and injective
in each single component: with the other components fixed, two keys are
equal exactly when the varying component (token address, network id,
account address, or optional multicall address, including its presence or
absence) is equal. -/
theorem C2_buildKey_single_component_injective
    (t1 t2 n1 n2 a1 a2 : String) (mc1 mc2 : Option String)
    (ht1 : t1 ≠ "") (ht2 : t2 ≠ "") (hn1 : n1 ≠ "") (hn2 : n2 ≠ "")
    (ha1 : a1 ≠ "") (ha2 : a2 ≠ "")
    (hm1 : ∀ m, mc1 = some m → m ≠ "") (hm2 : ∀ m, mc2 = some m → m ≠ "") :
    ((buildKey t1 n1 a1 mc1 = buildKey t2 n1 a1 mc1) ↔ t1 = t2)
    ∧ ((buildKey t1 n1 a1 mc1 = buildKey t1 n2 a1 mc1) ↔ n1 = n2)
    ∧ ((buildKey t1 n1 a1 mc1 = buildKey t1 n1 a2 mc1) ↔ a1 = a2)
    ∧ ((buildKey t1 n1 a1 mc1 = buildKey t1 n1 a1 mc2) ↔ mc1 = mc2) := by
  have et1 := isEmpty_false_of_ne t1 ht1
  have et2 := isEmpty_false_of_ne t2 ht2
  have en1 := isEmpty_false_of_ne n1 hn1
  have en2 := isEmpty_false_of_ne n2 hn2
  have ea1 := isEmpty_false_of_ne a1 ha1
  have ea2 := isEmpty_false_of_ne a2 ha2
  have em1 : ∀ m, mc1 = some m → m.isEmpty = false :=
    fun m h => isEmpty_false_of_ne m (hm1 m h)
  have em2 : ∀ m, mc2 = some m → m.isEmpty = false :=
    fun m h => isEmpty_false_of_ne m (hm2 m h)
  refine ⟨?_, ?_, ?_, ?_⟩
  · rw [buildKey_eq_joinDash t1 n1 a1 mc1 et1 en1 ea1 em1,
      buildKey_eq_joinDash t2 n1 a1 mc1 et2 en1 ea1 em1]
    constructor
    · intro h
      exact str_append_right_cancel (str_append_right_cancel (str_append_left_cancel h))
    · intro h
      rw [h]
  · rw [buildKey_eq_joinDash t1 n1 a1 mc1 et1 en1 ea1 em1,
      buildKey_eq_joinDash t1 n2 a1 mc1 et1 en2 ea1 em1]
    constructor
    · intro h
      exact str_append_right_cancel (str_append_right_cancel
        (str_append_left_cancel (str_append_left_cancel h)))
    · intro h
      rw [h]
  · cases mc1 with
    | none =>
      rw [buildKey_eq_joinDash t1 n1 a1 none et1 en1 ea1 em1,
        buildKey_eq_joinDash t1 n1 a2 none et1 en1 ea2 em1]
      constructor
      · intro h
        exact str_append_left_cancel (str_append_left_cancel (str_append_left_cancel h))
      · intro h
        rw [h]
    | some m =>
      rw [buildKey_eq_joinDash t1 n1 a1 (some m) et1 en1 ea1 em1,
        buildKey_eq_joinDash t1 n1 a2 (some m) et1 en1 ea2 em1]
      constructor
      · intro h
        have h3 := str_append_left_cancel (str_append_left_cancel (str_append_left_cancel h))
        exact str_append_right_cancel (str_append_right_cancel h3)
      · intro h
        rw [h]
  · cases mc1 with
    | none =>
      cases mc2 with
      | none => simp
      | some m2 =>
        rw [buildKey_eq_joinDash t1 n1 a1 none et1 en1 ea1 em1,
          buildKey_eq_joinDash t1 n1 a1 (some m2) et1 en1 ea1 em2]
        constructor
        · intro h
          have h3 := str_append_left_cancel (str_append_left_cancel (str_append_left_cancel h))
          exact absurd h3.symm (str_append_dash_ne a1 m2)
        · intro h
          cases h
    | some m1 =>
      cases mc2 with
      | none =>
        rw [buildKey_eq_joinDash t1 n1 a1 (some m1) et1 en1 ea1 em1,
          buildKey_eq_joinDash t1 n1 a1 none et1 en1 ea1 em2]
        constructor
        · intro h
          have h3 := str_append_left_cancel (str_append_left_cancel (str_append_left_cancel h))
          exact absurd h3 (str_append_dash_ne a1 m1)
        · intro h
          cases h
      | some m2 =>
        rw [buildKey_eq_joinDash t1 n1 a1 (some m1) et1 en1 ea1 em1,
          buildKey_eq_joinDash t1 n1 a1 (some m2) et1 en1 ea1 em2]
        constructor
        · intro h
          have h4 := str_append_left_cancel (str_append_left_cancel
            (str_append_left_cancel (str_append_left_cancel h)))
          rw [h4]
        · intro h
          injection h with hEq
          rw [hEq]

/-- C2 witness: the amended injectivity applied to two concrete tuples that
differ only in the token address. -/
theorem C2_witness :
    buildKey "0xaa" "net" "0xcc" (some "0xdd")
      ≠ buildKey "0xbb" "net" "0xcc" (some "0xdd") := by
  intro h
  have hiff := (C2_buildKey_single_component_injective "0xaa" "0xbb" "net" "net"
      "0xcc" "0xcc" (some "0xdd") (some "0xdd") (by decide) (by decide) (by decide)
      (by decide) (by decide) (by decide) (fun m hm => by cases hm; decide)
      (fun m hm => by cases hm; decide)).1
  exact absurd (hiff.mp h) (by decide)

end TokenBalance
